import Mathlib

/-!
Verification of the OCR command-line wrapper (`ocr.py`).

The program loads an image, applies an optional preprocessing chain
(grayscale, sharpen, denoise, threshold, optional deskew), and delegates
recognition to the external Tesseract engine through the pytesseract
binding.  The imaging library (Pillow) and the engine binding are
external collaborators: their operations enter the embedding as
explicit capability records (`Filters`, fields of `World`), while every
piece of logic written in `ocr.py` itself is translated directly.
-/

namespace Ocr

/-- An in-memory raster: a mode tag and one channel-value list per pixel.
Models the imaging library's image object as the program observes it. -/
structure Image where
  mode : String
  pixels : List (List Nat)
deriving Repr, DecidableEq

/-- Models the imaging library's `point` operation: the lookup function is
applied to every channel value of every pixel. -/
def Image.point (f : Nat → Nat) (img : Image) : Image :=
  { img with pixels := img.pixels.map (fun px => px.map f) }

/-- A pixel of a source file before normalization: grayscale, gray+alpha,
RGB, RGB+alpha, or palette-indexed. -/
inductive SrcPixel where
  | g (v : Nat)
  | ga (v a : Nat)
  | rgb (r gr b : Nat)
  | rgba (r gr b a : Nat)
  | idx (i : Nat)
deriving Repr, DecidableEq

/-- A decodable image file: its pixels in the source format, plus the
palette used by indexed pixels. -/
structure SourceImage where
  pixels : List SrcPixel
  palette : List (Nat × Nat × Nat)
deriving Repr, DecidableEq

/-- Models the imaging library's conversion of one source pixel to RGB:
grayscale replicates luminance into three channels, alpha is dropped,
palette indices are looked up. -/
def SrcPixel.toRGB (palette : List (Nat × Nat × Nat)) : SrcPixel → List Nat
  | .g v => [v, v, v]
  | .ga v _ => [v, v, v]
  | .rgb r gr b => [r, gr, b]
  | .rgba r gr b _ => [r, gr, b]
  | .idx i =>
      let c := palette.getD i (0, 0, 0)
      [c.1, c.2.1, c.2.2]

/-- Models the imaging library's `convert("RGB")`: every pixel becomes a
three-channel RGB pixel and the mode becomes `"RGB"`. -/
def SourceImage.convertRGB (s : SourceImage) : Image :=
  { mode := "RGB", pixels := s.pixels.map (SrcPixel.toRGB s.palette) }

/-- What the file system holds at a path: nothing, a file that is not a
decodable image, or a decodable image. -/
inductive FileEntry where
  | missing
  | notImage
  | image (src : SourceImage)
deriving Repr, DecidableEq

/-- Exceptions the program can raise, tagged by the Python class that
plays the role, each carrying its message. -/
inductive PyExc where
  | fileNotFoundError (m : String)
  | unidentifiedImageError (m : String)
  | runtimeError (m : String)
  | tesseractError (m : String)
  | osError (m : String)
deriving Repr, DecidableEq

/-- The message of an exception, as `str(exc)` renders it. -/
def PyExc.msg : PyExc → String
  | .fileNotFoundError m => m
  | .unidentifiedImageError m => m
  | .runtimeError m => m
  | .tesseractError m => m
  | .osError m => m

/-- Modelled from the spec: the taxonomy groups missing-path and
undecodable-image failures of the Loader as `FileDecodeError`. -/
def isFileDecodeError : PyExc → Bool
  | .fileNotFoundError _ => true
  | .unidentifiedImageError _ => true
  | _ => false

/-- The imaging-library filter primitives `preprocess_image` delegates to:
grayscale conversion, the fixed sharpen kernel, the 3x3 median filter and
the radius-0.8 Gaussian blur. -/
structure Filters where
  grayscaleF : Image → Image
  sharpenF : Image → Image
  medianF : Image → Image
  blurF : Image → Image

/-- The external collaborators of one invocation: the file system, the
engine binding (version probe, orientation report, recognition call), the
imaging library's rotate, the filter primitives, and the outcome of the
output-file write. -/
structure World where
  fs : String → FileEntry
  tesseractVersion : Except String Unit
  osd : Image → Except String String
  recognize : Image → String → Option String → Except String String
  rotate : Image → Int → Bool → Nat → Image
  filters : Filters
  writeResult : Except String Unit

/-- The fixed text of the installation-guidance message built by
the availability check in `_ensure_tesseract_available`; on any probe
failure the check raises a `RuntimeError` carrying this guidance. -/
def tesseractGuidanceHead : String :=
  "Tesseract OCR not found.\n" ++
  "Install it and ensure it\u0027s on PATH, e.g.:\n" ++
  "  - macOS:  brew install tesseract\n" ++
  "  - Ubuntu: sudo apt-get install -y tesseract-ocr\n" ++
  "Or set environment variable \u0027TESSERACT_CMD\u0027 to the binary path.\n" ++
  "Original error: "

/-- The full installation-guidance message wrapping the original error. -/
def tesseractGuidance (exc : String) : String :=
  tesseractGuidanceHead ++ exc

/-- Translation of the raise in the availability check. -/
def ensure_tesseract_available (W : World) : Except PyExc Unit :=
  match W.tesseractVersion with
  | .ok _ => .ok ()
  | .error exc => .error (.runtimeError (tesseractGuidance exc))

/-- Translation of `load_image`: open the path and convert the decoded
image to RGB; opening raises when the path is missing or the bytes are
not a decodable image. -/
def load_image (fs : String → FileEntry) (path : String) : Except PyExc Image :=
  match fs path with
  | .missing => .error (.fileNotFoundError path)
  | .notImage => .error (.unidentifiedImageError path)
  | .image src => .ok src.convertRGB

/-- Translation of `preprocess_image`: the optional grayscale, sharpen,
denoise and threshold steps applied by sequential reassignment of `img`,
exactly as the source writes them. -/
def preprocess_image (F : Filters) (img : Image) (grayscale : Bool := true)
    (sharpen : Bool := true) (threshold : Option Int := none)
    (denoise : Option String := none) : Image :=
  let img1 := if grayscale then F.grayscaleF img else img
  let img2 := if sharpen then F.sharpenF img1 else img1
  let img3 :=
    match denoise with
    | some d => if d = "median" then F.medianF img2
                else if d = "blur" then F.blurF img2
                else img2
    | none => img2
  match threshold with
  | some t0 =>
      let t := max 0 (min 255 t0)
      Image.point (fun p => if (p : Int) > t then 255 else 0) img3
  | none => img3

/-- Whether the pattern occurs as a contiguous run inside the list;
models Python's `in` test on strings. -/
def containsSub (pat : List Char) : List Char → Bool
  | [] => pat.isEmpty
  | c :: rest => List.isPrefixOf pat (c :: rest) || containsSub pat rest

/-- Models Python's `str.splitlines` for the line endings the engine
report can contain: `\n`, `\r` and `\r\n`, with no trailing empty line. -/
def pySplitlinesAux : List Char → List Char → List String
  | [], acc => if acc.isEmpty then [] else [String.mk acc.reverse]
  | '\r' :: '\n' :: rest, acc => String.mk acc.reverse :: pySplitlinesAux rest []
  | '\r' :: rest, acc => String.mk acc.reverse :: pySplitlinesAux rest []
  | '\n' :: rest, acc => String.mk acc.reverse :: pySplitlinesAux rest []
  | c :: rest, acc => pySplitlinesAux rest (c :: acc)

/-- Split a string into its lines, Python style. -/
def pySplitlines (s : String) : List String :=
  pySplitlinesAux s.data []

/-- Models Python's `str.strip`: remove whitespace from both ends. -/
def pyStrip (s : String) : String :=
  String.mk (((s.data.dropWhile Char.isWhitespace).reverse.dropWhile
    Char.isWhitespace).reverse)

/-- The numeric value of a run of decimal digits. -/
def digitsToNat (ds : List Char) : Nat :=
  ds.foldl (fun n c => n * 10 + (c.toNat - 48)) 0

/-- Models Python's `int()` on an already-stripped string: an optional
sign followed by at least one decimal digit; anything else raises
(returns `none`). -/
def pyToInt (s : String) : Option Int :=
  match s.data with
  | [] => none
  | '-' :: ds =>
      if ds.isEmpty = false ∧ ds.all Char.isDigit then
        some (-(digitsToNat ds : Int))
      else none
  | '+' :: ds =>
      if ds.isEmpty = false ∧ ds.all Char.isDigit then
        some (digitsToNat ds : Int)
      else none
  | ds => if ds.all Char.isDigit then some (digitsToNat ds : Int) else none

/-- Models `line.split(":", 1)[1]`: the text after the first colon, or a
caught `IndexError` (`none`) when the line has no colon. -/
def afterFirstColon (s : String) : Option String :=
  match s.data.dropWhile (fun c => c ≠ ':') with
  | [] => none
  | _ :: rest => some (String.mk rest)

/-- Translation of the parse attempt inside the deskew loop:
`int(line.split(":", 1)[1].strip())`, with any exception caught. -/
def parseRotateValue (line : String) : Option Int :=
  (afterFirstColon line).bind (fun r => pyToInt (pyStrip r))

/-- Whether the line contains the `"Rotate:"` marker. -/
def hasRotateMarker (line : String) : Bool :=
  containsSub "Rotate:".data line.data

/-- Translation of the `for line in osd.splitlines()` loop: the first
line containing `"Rotate:"` ends the loop, contributing its parsed value
(or nothing when parsing fails); later lines are never reached. -/
def findRotateAngle : List String → Option Int
  | [] => none
  | l :: ls => if hasRotateMarker l then parseRotateValue l else findRotateAngle ls

/-- Translation of `_deskew_with_tesseract`: request the orientation
report; on any failure, on a report without an angle, or on an angle that
is zero modulo 360, return the image unchanged; otherwise rotate by the
negated angle with the canvas expanded and new area filled white. -/
def deskew_with_tesseract (W : World) (img : Image) : Image :=
  match W.osd img with
  | .error _ => img
  | .ok osd =>
      match findRotateAngle (pySplitlines osd) with
      | none => img
      | some angle =>
          if angle % 360 ≠ 0 then W.rotate img (-angle) true 255 else img

/-- Models Python's `sep.join(parts)`. -/
def pyJoin (sep : String) : List String → String
  | [] => ""
  | [s] => s
  | s :: rest => s ++ sep ++ pyJoin sep rest

/-- Translation of the configuration-string build in `ocr_image`:
collect a `--psm` part then an `--oem` part, join with spaces, and pass
nothing when both are absent. -/
def buildConfig (psm oem : Option Int) : Option String :=
  let parts : List String :=
    (match psm with | some n => ["--psm " ++ toString n] | none => []) ++
    (match oem with | some n => ["--oem " ++ toString n] | none => [])
  if parts.isEmpty then none else some (pyJoin " " parts)

/-- The observable stages of one invocation, in execution order. -/
inductive Event where
  | engineCheck
  | loadStage
  | deskewStage
  | preprocessStage
  | recognizeStage
  | writeStage
deriving Repr, DecidableEq

/-- Translation of `ocr_image`: availability check, load, optional
deskew, preprocessing, configuration build, recognition call; the result
is paired with the trace of stages that actually ran. -/
def ocr_image (W : World) (image_path : String) (lang : String := "eng")
    (psm : Option Int := none) (oem : Option Int := none)
    (threshold : Option Int := none) (grayscale : Bool := true)
    (sharpen : Bool := true) (denoise : Option String := none)
    (deskew : Bool := false) : Except PyExc String × List Event :=
  match ensure_tesseract_available W with
  | .error e => (.error e, [.engineCheck])
  | .ok _ =>
    match load_image W.fs image_path with
    | .error e => (.error e, [.engineCheck, .loadStage])
    | .ok img0 =>
      let img1 := if deskew then deskew_with_tesseract W img0 else img0
      let img2 := preprocess_image W.filters img1 grayscale sharpen threshold denoise
      let evs := [Event.engineCheck, Event.loadStage] ++
        (if deskew then [Event.deskewStage] else []) ++ [Event.preprocessStage]
      let config := buildConfig psm oem
      match W.recognize img2 lang config with
      | .error e => (.error (.tesseractError e), evs ++ [.recognizeStage])
      | .ok text => (.ok text, evs ++ [.recognizeStage])

/-- The parsed command line, with the parser's defaults. -/
structure Args where
  image : String
  lang : String := "eng"
  psm : Option Int := none
  oem : Option Int := none
  noGrayscale : Bool := false
  noSharpen : Bool := false
  threshold : Option Int := none
  denoise : Option String := none
  deskew : Bool := false
  output : Option String := none

/-- How `main` ends: a return value, or an exception escaping it. -/
inductive Outcome where
  | returned (code : Int)
  | raised (e : PyExc)
deriving Repr, DecidableEq

/-- What one run of `main` produces: its outcome, the diagnostic lines
the handler printed to standard error, the standard-output lines, and
the stage trace. -/
structure MainResult where
  outcome : Outcome
  stderr : List String
  stdout : List String
  events : List Event
deriving Repr, DecidableEq

/-- Models `Path.exists()`: true whenever the path holds any file. -/
def pathExists (fs : String → FileEntry) (p : String) : Bool :=
  match fs p with
  | .missing => false
  | _ => true

/-- Translation of `main`: nonexistent path returns 2 before anything
runs; the try/except around `ocr_image` returns 1 with one diagnostic
line; the output write sits after the except block, so its failure
escapes `main` as an exception; otherwise return 0. -/
def main (W : World) (a : Args) : MainResult :=
  if pathExists W.fs a.image = false then
    { outcome := .returned 2
      stderr := ["Error: File not found: " ++ a.image]
      stdout := []
      events := [] }
  else
    match ocr_image W a.image a.lang a.psm a.oem a.threshold
        (!a.noGrayscale) (!a.noSharpen) a.denoise a.deskew with
    | (.error e, evs) =>
        { outcome := .returned 1
          stderr := ["OCR failed: " ++ e.msg]
          stdout := []
          events := evs }
    | (.ok text, evs) =>
        match a.output with
        | some outPath =>
            match W.writeResult with
            | .ok _ =>
                { outcome := .returned 0
                  stderr := []
                  stdout := ["Wrote: " ++ outPath]
                  events := evs ++ [.writeStage] }
            | .error m =>
                { outcome := .raised (.osError m)
                  stderr := []
                  stdout := []
                  events := evs }
        | none =>
            { outcome := .returned 0
              stderr := []
              stdout := [text]
              events := evs }

/-- Models the interpreter around `raise SystemExit(main())`: a returned
code is the process exit status; an exception escaping `main` terminates
the process with status 1 (after printing a traceback). -/
def processExitCode (r : MainResult) : Int :=
  match r.outcome with
  | .returned c => c
  | .raised _ => 1

/-- Spec stage 1: if `grayscale` is set, reduce to single-channel
luminance. -/
def stageGrayscale (F : Filters) (b : Bool) (img : Image) : Image :=
  if b then F.grayscaleF img else img

/-- Spec stage 2: if `sharpen` is set, apply the fixed sharpening
convolution. -/
def stageSharpen (F : Filters) (b : Bool) (img : Image) : Image :=
  if b then F.sharpenF img else img

/-- Spec stage 3: apply the selected denoise filter, if any. -/
def stageDenoise (F : Filters) (d : Option String) (img : Image) : Image :=
  match d with
  | some sel => if sel = "median" then F.medianF img
                else if sel = "blur" then F.blurF img
                else img
  | none => img

/-- Spec stage 4: if a threshold is present, clamp it to `[0, 255]` and
binarize every channel value against it. -/
def stageThreshold (t : Option Int) (img : Image) : Image :=
  match t with
  | some t0 =>
      Image.point (fun p => if (p : Int) > max 0 (min 255 t0) then 255 else 0) img
  | none => img

/-- Concrete filter primitives used by the witness runs: grayscale keeps
the first channel, the convolution filters are left as the identity. -/
def sampleFilters : Filters where
  grayscaleF := fun i => { mode := "L", pixels := i.pixels.map (fun px => [px.headD 0]) }
  sharpenF := id
  medianF := id
  blurF := id

/-- A decodable sample file for the witness runs. -/
def samplePng : SourceImage where
  pixels := [.rgb 10 200 30, .g 7]
  palette := []

/-- A file system holding exactly one decodable image for the witness
runs. -/
def sampleFs : String → FileEntry :=
  fun p => if p = "sample.png" then .image samplePng else .missing

/-- A world where every external collaborator succeeds; the rotate
primitive records its arguments so witness runs can observe them. -/
def happyWorld : World where
  fs := sampleFs
  tesseractVersion := .ok ()
  osd := fun _ => .ok "Page number: 0\nRotate: 0\nScript: Latin"
  recognize := fun _ _ _ => .ok "Hello OCR 123\n"
  rotate := fun i a e f => { mode := "ROT", pixels := [[a.natAbs, cond e 1 0, f]] ++ i.pixels }
  filters := sampleFilters
  writeResult := .ok ()

/-- A world whose engine version probe fails. -/
def engineDownWorld : World :=
  { happyWorld with tesseractVersion := .error "tesseract is not installed" }

/-- A world whose output-file write fails. -/
def writeFailWorld : World :=
  { happyWorld with writeResult := .error "No space left on device" }

/-- A world whose orientation report has an unparsable rotation value. -/
def badOsdWorld : World :=
  { happyWorld with osd := fun _ => .ok "Page number: 0\nRotate: up\nScript: Latin" }

/-- A world whose orientation request itself fails. -/
def osdFailWorld : World :=
  { happyWorld with osd := fun _ => .error "osd failed" }

/-- A file system holding one file that is not a decodable image. -/
def textFs : String → FileEntry :=
  fun p => if p = "notes.txt" then .notImage else .missing

/-- A world whose orientation report asks for a 90 degree rotation. -/
def rotWorld : World :=
  { happyWorld with osd := fun _ => .ok "Page number: 0\nRotate: 90\nScript: Latin" }

/-- A world whose recognition call fails. -/
def recognizeFailWorld : World :=
  { happyWorld with recognize := fun _ _ _ => .error "Tesseract process crashed" }

/-- A sample image for the witness runs. -/
def sampleImg : Image where
  mode := "L"
  pixels := [[10], [200], [100]]

/-- Arguments naming the sample image with defaults elsewhere. -/
def sampleArgs : Args where
  image := "sample.png"

/-- Arguments naming a path the file system does not hold. -/
def missingArgs : Args where
  image := "missing.png"

/-- Arguments directing the text to an output file. -/
def outputArgs : Args where
  image := "sample.png"
  output := some "out/result.txt"

/-- Auxiliary: the executable substring test agrees with list infixes. -/
theorem containsSub_iff (pat l : List Char) :
    containsSub pat l = true ↔ pat <:+: l := by
  induction l with
  | nil => simp [containsSub, List.infix_nil]
  | cons c rest ih =>
      simp [containsSub, List.isPrefixOf_iff_prefix, ih, List.infix_cons_iff]

/-- Auxiliary: a path fails the existence test exactly when the file
system holds nothing there. -/
theorem pathExists_false_iff (fs : String → FileEntry) (p : String) :
    pathExists fs p = false ↔ fs p = FileEntry.missing := by
  unfold pathExists
  cases hfs : fs p <;> simp

/-- C1: with a threshold set, the threshold is first clamped into
`[0, 255]`; every channel value of the output is 255 or 0, the full
output raster is the pointwise binarization of the raster produced by
the earlier stages, and a value maps to 255 exactly when the input value
strictly exceeds the clamped threshold. -/
theorem C1_threshold_binarization (F : Filters) (img : Image) (g s : Bool)
    (d : Option String) (t tc : Int) (htc : tc = max 0 (min 255 t)) :
    (0 ≤ tc ∧ tc ≤ 255) ∧
    (preprocess_image F img g s (some t) d).pixels =
      (preprocess_image F img g s none d).pixels.map
        (List.map (fun (p : Nat) => if (p : Int) > tc then 255 else 0)) ∧
    (∀ px ∈ (preprocess_image F img g s (some t) d).pixels,
      ∀ v ∈ px, v = 255 ∨ v = 0) ∧
    (∀ p : Nat,
      ((if (p : Int) > tc then (255 : Nat) else 0) = 255 ↔ (p : Int) > tc)) := by
  subst htc
  have hmap : (preprocess_image F img g s (some t) d).pixels =
      (preprocess_image F img g s none d).pixels.map
        (List.map (fun (p : Nat) => if (p : Int) > max 0 (min 255 t) then 255 else 0)) := rfl
  refine ⟨⟨le_max_left _ _, max_le (by norm_num) (min_le_left _ _)⟩, hmap, ?_, ?_⟩
  · intro px hpx v hv
    rw [hmap] at hpx
    simp only [List.mem_map] at hpx
    obtain ⟨px0, _, rfl⟩ := hpx
    simp only [List.mem_map] at hv
    obtain ⟨v0, _, rfl⟩ := hv
    by_cases h : ((v0 : Int) > max 0 (min 255 t))
    · left; simp [h]
    · right; simp [h]
  · intro p
    by_cases h : ((p : Int) > max 0 (min 255 t)) <;> simp [h]

/-- Witness for C1 at a concrete image and threshold 100. -/
theorem C1_threshold_binarization_witness :
    ((0 : Int) ≤ 100 ∧ (100 : Int) ≤ 255) ∧
    (preprocess_image sampleFilters sampleImg false false (some 100) none).pixels =
      (preprocess_image sampleFilters sampleImg false false none none).pixels.map
        (List.map (fun (p : Nat) => if (p : Int) > 100 then 255 else 0)) ∧
    (∀ px ∈ (preprocess_image sampleFilters sampleImg false false (some 100) none).pixels,
      ∀ v ∈ px, v = 255 ∨ v = 0) ∧
    (∀ p : Nat,
      ((if (p : Int) > 100 then (255 : Nat) else 0) = 255 ↔ (p : Int) > 100)) :=
  C1_threshold_binarization sampleFilters sampleImg false false none 100 100 (by decide)

/-- C6: disabling grayscale and sharpen with no threshold and no denoise
filter returns the input image unchanged, so channel count and pixel
values are those of the loaded image. -/
theorem C6_identity_preprocessing (F : Filters) (img : Image) :
    preprocess_image F img false false none none = img := rfl

/-- Auxiliary characterization of a run whose engine probe and image
load both succeed: the result is the recognition call on the fully
preprocessed image (deskew first when enabled, then the preprocessing
chain) with the built configuration string, and the stage trace runs in
pipeline order. -/
theorem ocr_image_run (W : World) (path lang : String) (psm oem t : Option Int)
    (g s : Bool) (d : Option String) (dk : Bool) (src : SourceImage)
    (hver : W.tesseractVersion = Except.ok ())
    (hfs : W.fs path = FileEntry.image src) :
    ocr_image W path lang psm oem t g s d dk =
      ((match W.recognize (preprocess_image W.filters
            (if dk then deskew_with_tesseract W src.convertRGB else src.convertRGB)
            g s t d) lang (buildConfig psm oem) with
        | .error e => Except.error (PyExc.tesseractError e)
        | .ok tx => Except.ok tx),
       [Event.engineCheck, Event.loadStage] ++
         (if dk then [Event.deskewStage] else []) ++
         [Event.preprocessStage, Event.recognizeStage]) := by
  have hens : ensure_tesseract_available W = .ok () := by
    simp [ensure_tesseract_available, hver]
  simp only [ocr_image, hens, load_image, hfs]
  cases dk <;> simp <;> (split <;> simp_all)

/-- C7: the configuration string is the space-joined concatenation of a
`--psm N` token (present iff psm is set) and an `--oem N` token (present
iff oem is set), in that order, and is omitted entirely when neither is
set; the recognition call receives exactly this string. -/
theorem C7_config_string (p o : Int) :
    buildConfig (some p) (some o) =
      some ("--psm " ++ toString p ++ " " ++ ("--oem " ++ toString o)) ∧
    buildConfig (some p) none = some ("--psm " ++ toString p) ∧
    buildConfig none (some o) = some ("--oem " ++ toString o) ∧
    buildConfig none none = none ∧
    (∀ (W : World) (path lang : String) (psm oem t : Option Int) (g s : Bool)
        (d : Option String) (dk : Bool) (src : SourceImage),
      W.tesseractVersion = Except.ok () → W.fs path = FileEntry.image src →
      ∃ img2 evs, ocr_image W path lang psm oem t g s d dk =
        ((match W.recognize img2 lang (buildConfig psm oem) with
          | .error e => Except.error (PyExc.tesseractError e)
          | .ok tx => Except.ok tx), evs)) := by
  refine ⟨rfl, rfl, rfl, rfl, ?_⟩
  intro W path lang psm oem t g s d dk src hver hfs
  exact ⟨_, _, ocr_image_run W path lang psm oem t g s d dk src hver hfs⟩

/-- Witness for C7 at psm 6, oem 3, and a concrete successful run. -/
theorem C7_config_string_witness :
    buildConfig (some 6) (some 3) =
      some ("--psm " ++ toString (6 : Int) ++ " " ++ ("--oem " ++ toString (3 : Int))) ∧
    buildConfig (some 6) none = some ("--psm " ++ toString (6 : Int)) ∧
    buildConfig none (some 3) = some ("--oem " ++ toString (3 : Int)) ∧
    buildConfig none none = none ∧
    (∃ img2 evs,
      ocr_image happyWorld "sample.png" "eng" (some 6) (some 3) none true true none false =
        ((match happyWorld.recognize img2 "eng" (buildConfig (some 6) (some 3)) with
          | .error e => Except.error (PyExc.tesseractError e)
          | .ok tx => Except.ok tx), evs)) := by
  have h := C7_config_string 6 3
  exact ⟨h.1, h.2.1, h.2.2.1, h.2.2.2.1,
    h.2.2.2.2 happyWorld "sample.png" "eng" (some 6) (some 3) none true true
      none false samplePng rfl (by decide)⟩

/-- Auxiliary: a path passes the existence test when the file system
holds anything there. -/
theorem pathExists_true (fs : String → FileEntry) (p : String)
    (h : fs p ≠ FileEntry.missing) : pathExists fs p = true := by
  cases hfs : fs p
  · exact absurd hfs h
  · simp [pathExists, hfs]
  · simp [pathExists, hfs]

/-- Auxiliary: a substring of the left part is a substring of the whole. -/
theorem containsSub_append_left (pat l1 l2 : List Char)
    (h : containsSub pat l1 = true) : containsSub pat (l1 ++ l2) = true := by
  rw [containsSub_iff] at h ⊢
  exact h.trans (List.prefix_append l1 l2).isInfix

/-- C2: a nonexistent image path returns exit code 2 with no stage run;
an OCR/processing failure returns exit code 1 with a message on standard
error; a successful run returns exit code 0; a failing output write also
ends the process with status 1. -/
theorem C2_exit_codes (W : World) (a : Args) :
    (W.fs a.image = FileEntry.missing →
      main W a = { outcome := .returned 2,
                   stderr := ["Error: File not found: " ++ a.image],
                   stdout := [], events := [] }) ∧
    (∀ e evs,
      W.fs a.image ≠ FileEntry.missing →
      ocr_image W a.image a.lang a.psm a.oem a.threshold
          (!a.noGrayscale) (!a.noSharpen) a.denoise a.deskew =
        (Except.error e, evs) →
      (main W a).outcome = .returned 1 ∧
      (main W a).stderr = ["OCR failed: " ++ e.msg]) ∧
    (∀ text evs,
      W.fs a.image ≠ FileEntry.missing →
      ocr_image W a.image a.lang a.psm a.oem a.threshold
          (!a.noGrayscale) (!a.noSharpen) a.denoise a.deskew =
        (Except.ok text, evs) →
      (a.output = none ∨ W.writeResult = Except.ok ()) →
      (main W a).outcome = .returned 0) ∧
    (∀ text evs outPath m,
      W.fs a.image ≠ FileEntry.missing →
      ocr_image W a.image a.lang a.psm a.oem a.threshold
          (!a.noGrayscale) (!a.noSharpen) a.denoise a.deskew =
        (Except.ok text, evs) →
      a.output = some outPath → W.writeResult = Except.error m →
      processExitCode (main W a) = 1) := by
  refine ⟨?_, ?_, ?_, ?_⟩
  · intro h
    have hp : pathExists W.fs a.image = false := (pathExists_false_iff _ _).mpr h
    simp [main, hp]
  · intro e evs hne hocr
    have hp : pathExists W.fs a.image = true := pathExists_true _ _ hne
    simp [main, hp, hocr]
  · intro text evs hne hocr hw
    have hp : pathExists W.fs a.image = true := pathExists_true _ _ hne
    rcases hw with hout | hwok
    · simp [main, hp, hocr, hout]
    · cases hout : a.output
      · simp [main, hp, hocr, hout]
      · simp [main, hp, hocr, hout, hwok]
  · intro text evs outPath m hne hocr hout hw
    have hp : pathExists W.fs a.image = true := pathExists_true _ _ hne
    simp [main, processExitCode, hp, hocr, hout, hw]

/-- Witness for C2 at four concrete runs: a missing path, an unavailable
engine, a fully successful run, and a failing output write. -/
theorem C2_exit_codes_witness :
    main happyWorld missingArgs =
      { outcome := .returned 2,
        stderr := ["Error: File not found: " ++ missingArgs.image],
        stdout := [], events := [] } ∧
    ((main engineDownWorld sampleArgs).outcome = .returned 1 ∧
      (main engineDownWorld sampleArgs).stderr =
        ["OCR failed: " ++
          (PyExc.runtimeError
            (tesseractGuidance "tesseract is not installed")).msg]) ∧
    (main happyWorld sampleArgs).outcome = .returned 0 ∧
    processExitCode (main writeFailWorld outputArgs) = 1 := by
  refine ⟨?_, ?_, ?_, ?_⟩
  · exact (C2_exit_codes happyWorld missingArgs).1 (by decide)
  · exact (C2_exit_codes engineDownWorld sampleArgs).2.1
      (PyExc.runtimeError (tesseractGuidance "tesseract is not installed"))
      [Event.engineCheck] (by decide) rfl
  · exact (C2_exit_codes happyWorld sampleArgs).2.2.1 "Hello OCR 123\n"
      [Event.engineCheck, Event.loadStage, Event.preprocessStage,
        Event.recognizeStage] (by decide) rfl (Or.inl rfl)
  · exact (C2_exit_codes writeFailWorld outputArgs).2.2.2 "Hello OCR 123\n"
      [Event.engineCheck, Event.loadStage, Event.preprocessStage,
        Event.recognizeStage] "out/result.txt" "No space left on device"
      (by decide) rfl rfl rfl

/-- C3: when the engine version probe fails, the availability check
fails with the runtime error playing the spec role of
`EngineUnavailableError`, its message carries installation guidance, the
recognition pipeline stops at the check, and the process exits with
code 1 after printing the message to standard error. -/
theorem C3_engine_unavailable (W : World) (a : Args) (err : String)
    (hfs : W.fs a.image ≠ FileEntry.missing)
    (hver : W.tesseractVersion = Except.error err) :
    ensure_tesseract_available W =
      .error (.runtimeError (tesseractGuidance err)) ∧
    containsSub "Install".data (tesseractGuidance err).data = true ∧
    containsSub "brew install tesseract".data (tesseractGuidance err).data = true ∧
    containsSub "apt-get install -y tesseract-ocr".data
      (tesseractGuidance err).data = true ∧
    ocr_image W a.image a.lang a.psm a.oem a.threshold (!a.noGrayscale)
        (!a.noSharpen) a.denoise a.deskew =
      (.error (.runtimeError (tesseractGuidance err)), [Event.engineCheck]) ∧
    (main W a).outcome = .returned 1 ∧
    (main W a).stderr = ["OCR failed: " ++ tesseractGuidance err] := by
  have hens : ensure_tesseract_available W =
      .error (.runtimeError (tesseractGuidance err)) := by
    simp [ensure_tesseract_available, hver]
  have hdata : (tesseractGuidance err).data =
      tesseractGuidanceHead.data ++ err.data := rfl
  have hocr : ocr_image W a.image a.lang a.psm a.oem a.threshold
      (!a.noGrayscale) (!a.noSharpen) a.denoise a.deskew =
      (.error (.runtimeError (tesseractGuidance err)), [Event.engineCheck]) := by
    simp [ocr_image, hens]
  have hp : pathExists W.fs a.image = true := pathExists_true _ _ hfs
  refine ⟨hens, ?_, ?_, ?_, hocr, ?_, ?_⟩
  · rw [hdata]; exact containsSub_append_left _ _ _ (by decide)
  · rw [hdata]; exact containsSub_append_left _ _ _ (by decide)
  · rw [hdata]; exact containsSub_append_left _ _ _ (by decide)
  · simp [main, hp, hocr, PyExc.msg]
  · simp [main, hp, hocr, PyExc.msg]

/-- Witness for C3 at a concrete world whose version probe fails. -/
theorem C3_engine_unavailable_witness :
    ensure_tesseract_available engineDownWorld =
      .error (.runtimeError (tesseractGuidance "tesseract is not installed")) ∧
    containsSub "Install".data
      (tesseractGuidance "tesseract is not installed").data = true ∧
    containsSub "brew install tesseract".data
      (tesseractGuidance "tesseract is not installed").data = true ∧
    containsSub "apt-get install -y tesseract-ocr".data
      (tesseractGuidance "tesseract is not installed").data = true ∧
    ocr_image engineDownWorld sampleArgs.image sampleArgs.lang sampleArgs.psm
        sampleArgs.oem sampleArgs.threshold (!sampleArgs.noGrayscale)
        (!sampleArgs.noSharpen) sampleArgs.denoise sampleArgs.deskew =
      (.error (.runtimeError (tesseractGuidance "tesseract is not installed")),
        [Event.engineCheck]) ∧
    (main engineDownWorld sampleArgs).outcome = .returned 1 ∧
    (main engineDownWorld sampleArgs).stderr =
      ["OCR failed: " ++ tesseractGuidance "tesseract is not installed"] :=
  C3_engine_unavailable engineDownWorld sampleArgs "tesseract is not installed"
    (by decide) rfl

/-- C4: the deskew stage is a total function of the report; when the
orientation request fails, or when no rotation angle can be parsed from
the report, it returns the input image unchanged. -/
theorem C4_deskew_degrades_silently (W : World) (img : Image) :
    (∀ e, W.osd img = Except.error e → deskew_with_tesseract W img = img) ∧
    (∀ s, W.osd img = Except.ok s →
      findRotateAngle (pySplitlines s) = none →
      deskew_with_tesseract W img = img) := by
  constructor
  · intro e h
    simp [deskew_with_tesseract, h]
  · intro s h hn
    simp [deskew_with_tesseract, h, hn]

/-- Witness for C4 at a failing orientation request and at a report
whose rotation value does not parse. -/
theorem C4_deskew_degrades_silently_witness :
    deskew_with_tesseract osdFailWorld sampleImg = sampleImg ∧
    deskew_with_tesseract badOsdWorld sampleImg = sampleImg := by
  constructor
  · exact (C4_deskew_degrades_silently osdFailWorld sampleImg).1 "osd failed" rfl
  · exact (C4_deskew_degrades_silently badOsdWorld sampleImg).2
      "Page number: 0\nRotate: up\nScript: Latin" rfl (by decide)

/-- C5: the preprocessing chain is the composition of the four spec
stages in the fixed order grayscale, sharpen, denoise, threshold, each
stage feeding the next; and in a full run the deskew stage (when
enabled) is applied to the loaded image before that chain, whose output
is what the recognition call receives, with the stage trace in the same
order. -/
theorem C5_pipeline_order (F : Filters) (img : Image) (g s : Bool)
    (t : Option Int) (d : Option String) :
    preprocess_image F img g s t d =
      stageThreshold t (stageDenoise F d (stageSharpen F s (stageGrayscale F g img))) ∧
    (∀ (W : World) (path lang : String) (psm oem : Option Int) (dk : Bool)
        (src : SourceImage),
      W.tesseractVersion = Except.ok () → W.fs path = FileEntry.image src →
      ocr_image W path lang psm oem t g s d dk =
        ((match W.recognize (stageThreshold t (stageDenoise W.filters d
              (stageSharpen W.filters s (stageGrayscale W.filters g
                (if dk then deskew_with_tesseract W src.convertRGB
                 else src.convertRGB))))) lang (buildConfig psm oem) with
          | .error e => Except.error (PyExc.tesseractError e)
          | .ok tx => Except.ok tx),
         [Event.engineCheck, Event.loadStage] ++
           (if dk then [Event.deskewStage] else []) ++
           [Event.preprocessStage, Event.recognizeStage])) := by
  have hstage : ∀ (F0 : Filters) (img0 : Image),
      preprocess_image F0 img0 g s t d =
        stageThreshold t (stageDenoise F0 d
          (stageSharpen F0 s (stageGrayscale F0 g img0))) := by
    intro F0 img0
    rfl
  refine ⟨hstage F img, ?_⟩
  intro W path lang psm oem dk src hver hfs
  rw [ocr_image_run W path lang psm oem t g s d dk src hver hfs, hstage]

/-- Witness for C5 at a concrete deskew-enabled run. -/
theorem C5_pipeline_order_witness :
    preprocess_image sampleFilters sampleImg true true none none =
      stageThreshold none (stageDenoise sampleFilters none
        (stageSharpen sampleFilters true
          (stageGrayscale sampleFilters true sampleImg))) ∧
    ocr_image happyWorld "sample.png" "eng" none none none true true none true =
      ((match happyWorld.recognize (stageThreshold none
            (stageDenoise happyWorld.filters none
              (stageSharpen happyWorld.filters true
                (stageGrayscale happyWorld.filters true
                  (if true then deskew_with_tesseract happyWorld samplePng.convertRGB
                   else samplePng.convertRGB))))) "eng" (buildConfig none none) with
        | .error e => Except.error (PyExc.tesseractError e)
        | .ok tx => Except.ok tx),
       [Event.engineCheck, Event.loadStage] ++
         (if true then [Event.deskewStage] else []) ++
         [Event.preprocessStage, Event.recognizeStage]) := by
  constructor
  · exact (C5_pipeline_order sampleFilters sampleImg true true none none).1
  · exact (C5_pipeline_order sampleFilters sampleImg true true none none).2
      happyWorld "sample.png" "eng" none none true samplePng rfl (by decide)

/-- C8 counterexample: when the output-file write fails after a
successful recognition, the top-level handler does not catch the
failure: `main` ends with an exception escaping it and prints no
diagnostic line, refuting the claim that all processing failures,
including output-write I/O errors, are caught and reported with a
single line and a returned nonzero code. -/
theorem C8_counterexample :
    (main writeFailWorld outputArgs).outcome =
      Outcome.raised (PyExc.osError "No space left on device") ∧
    (main writeFailWorld outputArgs).stderr = [] := by
  constructor
  · rfl
  · rfl

/-- C8 (amended): the handler catches exactly the failures raised inside
the OCR pipeline (availability check, load, recognition), printing a
single diagnostic line to standard error and returning exit code 1 with
no output produced; a failing output write instead escapes `main` as an
uncaught exception (the interpreter then ends the process with status 1
and a traceback), also with no partial text output on standard out. -/
theorem C8_handler_scope (W : World) (a : Args) :
    (∀ e evs,
      W.fs a.image ≠ FileEntry.missing →
      ocr_image W a.image a.lang a.psm a.oem a.threshold (!a.noGrayscale)
          (!a.noSharpen) a.denoise a.deskew = (Except.error e, evs) →
      main W a = { outcome := .returned 1,
                   stderr := ["OCR failed: " ++ e.msg],
                   stdout := [], events := evs }) ∧
    (∀ text evs outPath m,
      W.fs a.image ≠ FileEntry.missing →
      ocr_image W a.image a.lang a.psm a.oem a.threshold (!a.noGrayscale)
          (!a.noSharpen) a.denoise a.deskew = (Except.ok text, evs) →
      a.output = some outPath → W.writeResult = Except.error m →
      main W a = { outcome := .raised (.osError m), stderr := [],
                   stdout := [], events := evs } ∧
      processExitCode (main W a) = 1) := by
  constructor
  · intro e evs hne hocr
    have hp : pathExists W.fs a.image = true := pathExists_true _ _ hne
    simp [main, hp, hocr]
  · intro text evs outPath m hne hocr hout hw
    have hp : pathExists W.fs a.image = true := pathExists_true _ _ hne
    constructor
    · simp [main, hp, hocr, hout, hw]
    · simp [main, processExitCode, hp, hocr, hout, hw]

/-- Witness for the amended C8 at an unavailable engine and at a
failing output write. -/
theorem C8_handler_scope_witness :
    main engineDownWorld sampleArgs =
      { outcome := .returned 1,
        stderr := ["OCR failed: " ++
          (PyExc.runtimeError
            (tesseractGuidance "tesseract is not installed")).msg],
        stdout := [], events := [Event.engineCheck] } ∧
    (main writeFailWorld outputArgs =
      { outcome := .raised (.osError "No space left on device"), stderr := [],
        stdout := [],
        events := [Event.engineCheck, Event.loadStage, Event.preprocessStage,
          Event.recognizeStage] } ∧
      processExitCode (main writeFailWorld outputArgs) = 1) := by
  constructor
  · exact (C8_handler_scope engineDownWorld sampleArgs).1
      (PyExc.runtimeError (tesseractGuidance "tesseract is not installed"))
      [Event.engineCheck] (by decide) rfl
  · exact (C8_handler_scope writeFailWorld outputArgs).2 "Hello OCR 123\n"
      [Event.engineCheck, Event.loadStage, Event.preprocessStage,
        Event.recognizeStage] "out/result.txt" "No space left on device"
      (by decide) rfl rfl rfl

/-- C9: the Loader fails with a file-decode error exactly on a missing
path or an undecodable file, and every successfully loaded image is
normalized to the three-channel RGB representation regardless of the
source pixel format. -/
theorem C9_loader_normalizes (fs : String → FileEntry) (p : String) :
    (fs p = FileEntry.missing →
      load_image fs p = .error (.fileNotFoundError p)) ∧
    (fs p = FileEntry.notImage →
      load_image fs p = .error (.unidentifiedImageError p)) ∧
    (∀ e, load_image fs p = Except.error e → isFileDecodeError e = true) ∧
    (∀ img, load_image fs p = Except.ok img →
      img.mode = "RGB" ∧ ∀ px ∈ img.pixels, px.length = 3) := by
  refine ⟨?_, ?_, ?_, ?_⟩
  · intro h
    simp [load_image, h]
  · intro h
    simp [load_image, h]
  · intro e h
    unfold load_image at h
    cases hfs : fs p <;> rw [hfs] at h
    · cases h
      rfl
    · cases h
      rfl
    · cases h
  · intro img h
    unfold load_image at h
    cases hfs : fs p <;> rw [hfs] at h
    · cases h
    · cases h
    · cases h
      rename_i src
      constructor
      · rfl
      · intro px hpx
        simp only [SourceImage.convertRGB, List.mem_map] at hpx
        obtain ⟨pix, _, rfl⟩ := hpx
        cases pix <;> simp [SrcPixel.toRGB]

/-- Witness for C9 at a missing path, an undecodable file, and a
decodable image holding both an RGB and a grayscale pixel. -/
theorem C9_loader_normalizes_witness :
    load_image sampleFs "missing.png" =
      .error (.fileNotFoundError "missing.png") ∧
    load_image textFs "notes.txt" =
      .error (.unidentifiedImageError "notes.txt") ∧
    (samplePng.convertRGB.mode = "RGB" ∧
      ∀ px ∈ samplePng.convertRGB.pixels, px.length = 3) := by
  refine ⟨?_, ?_, ?_⟩
  · exact (C9_loader_normalizes sampleFs "missing.png").1 (by decide)
  · exact (C9_loader_normalizes textFs "notes.txt").2.1 (by decide)
  · exact (C9_loader_normalizes sampleFs "sample.png").2.2.2
      samplePng.convertRGB rfl

/-- C10: the deskew parser uses only the first line containing
`"Rotate:"` — its parsed value (possibly none) is the result no matter
what later lines hold — and a rotation happens only for an angle nonzero
modulo 360, in which case the image is rotated by the negated angle with
the canvas expanded and new area filled with white (255). -/
theorem C10_osd_first_rotate_line (pre : List String) (l : String)
    (post : List String) :
    ((∀ l2 ∈ pre, hasRotateMarker l2 = false) → hasRotateMarker l = true →
      findRotateAngle (pre ++ l :: post) = parseRotateValue l) ∧
    (∀ (W : World) (img : Image) (s : String), W.osd img = Except.ok s →
      (findRotateAngle (pySplitlines s) = none →
        deskew_with_tesseract W img = img) ∧
      (∀ n, findRotateAngle (pySplitlines s) = some n →
        (n % 360 = 0 → deskew_with_tesseract W img = img) ∧
        (n % 360 ≠ 0 →
          deskew_with_tesseract W img = W.rotate img (-n) true 255))) := by
  constructor
  · intro hpre hl
    induction pre with
    | nil => simp [findRotateAngle, hl]
    | cons a as ih =>
        have ha : hasRotateMarker a = false := hpre a (List.mem_cons_self a as)
        have hrest : ∀ l2 ∈ as, hasRotateMarker l2 = false :=
          fun x hx => hpre x (List.mem_cons_of_mem a hx)
        simpa [findRotateAngle, ha] using ih hrest
  · intro W img s hosd
    constructor
    · intro hn
      simp [deskew_with_tesseract, hosd, hn]
    · intro n hn
      constructor
      · intro hz
        simp [deskew_with_tesseract, hosd, hn, hz]
      · intro hz
        simp [deskew_with_tesseract, hosd, hn, hz]

/-- Witness for C10: an unparsable first rotation line wins over a later
parsable one, and a report asking for 90 degrees rotates by -90 with the
canvas expanded and white fill. -/
theorem C10_osd_first_rotate_line_witness :
    findRotateAngle (["Page number: 0"] ++ "Rotate: up" :: ["Rotate: 90"]) =
      parseRotateValue "Rotate: up" ∧
    deskew_with_tesseract rotWorld sampleImg =
      rotWorld.rotate sampleImg (-90) true 255 := by
  constructor
  · exact (C10_osd_first_rotate_line ["Page number: 0"] "Rotate: up"
      ["Rotate: 90"]).1 (by decide) (by decide)
  · exact (((C10_osd_first_rotate_line [] "" []).2 rotWorld sampleImg
      "Page number: 0\nRotate: 90\nScript: Latin" rfl).2 90 (by decide)).2
      (by decide)

end Ocr
